import Mathlib

/-!
Verification of the gbemu Game Boy emulator core (Go) against its
natural-language specification.

This file shallowly embeds the relevant parts of the Go source:

* `pkg/emulator/math.go` — bit and arithmetic primitives,
* `registers.go` — the register file,
* the MBC1 cartridge (`rom`),
* the timer controller (`timerController`),
* the video controller / PPU (`videoController`),
* the interrupt / serial / joypad / sound controllers and the memory bus,
* the CPU interpreter (`cpu`) and the top-level machine tick
  (the loop body of `Emulator.Run`).

Bytes are modelled as `Nat` values (reduced `% 256` exactly where the Go
byte arithmetic wraps), 16-bit addresses as `Nat` values reduced `% 65536`,
and Go `int` values that may go negative as `Int`.  Code paths that panic
in Go (`notImplemented`, `log.Panicf`, slice out-of-range on the memory
bus) are modelled with `Option`.
-/

namespace GB

/-! ## Bit and arithmetic primitives (`pkg/emulator/math.go`) -/

/-- `readBitN(b, offset)`: `b&(1<<offset) > 0`. -/
def readBitN (b : Nat) (offset : Nat) : Bool :=
  b &&& (1 <<< offset) > 0

/-- `writeBitN(b, offset, v)`.  The Go complement `^(1 << offset)` is taken
at byte width, i.e. it equals `0xFF ^ (1 << offset)` for a `byte` operand. -/
def writeBitN (b : Nat) (offset : Nat) (v : Bool) : Nat :=
  if v then
    b ||| (1 <<< offset)
  else
    b &&& (0xFF ^^^ (1 <<< offset))

/-- `copyBits(to, from, offsets...)` applies `writeBitN` for each offset. -/
def copyBits (dst : Nat) (src : Nat) (offsets : List Nat) : Nat :=
  offsets.foldl (fun t off => writeBitN t off (readBitN src off)) dst

/-- `offsetAddress(base, offset)` adjusts a `uint16` base by a signed
offset; the additions and subtractions wrap at 16 bits. -/
def offsetAddress (base : Nat) (offset : Int) : Nat :=
  if offset > 0 then
    (base + offset.toNat) % 65536
  else
    (base + 65536 - ((-offset).toNat % 65536)) % 65536

/-- Go conversion `int8(b)` of a byte `b`: two's complement reinterpretation. -/
def int8OfByte (b : Nat) : Int :=
  if b % 256 < 128 then ((b % 256 : Nat) : Int) else ((b % 256 : Nat) : Int) - 256

/-- Go conversion of a non-negative `int` to `uint8` (low 8 bits). -/
def uint8OfInt (i : Int) : Nat :=
  (i % 256).toNat

/-- `add(v1, v2)` returning `(result, overflow, halfoverflow)`. -/
def add (v1 v2 : Nat) : Nat × Bool × Bool :=
  ((v1 + v2) % 256, decide (v1 > 0xFF - v2), decide (v1 &&& 0x0F > 0x0F - (v2 &&& 0x0F)))

/-- `subtract(v1, v2)` returning `(result, borrow, halfborrow)`; the byte
subtraction wraps at 8 bits. -/
def subtract (v1 v2 : Nat) : Nat × Bool × Bool :=
  ((v1 + 256 - v2 % 256) % 256, decide (v1 < v2), decide (v1 &&& 0x0F < v2 &&& 0x0F))

/-- Pointwise update of a byte store modelled as a function. -/
def upd (f : Nat → Nat) (i v : Nat) : Nat → Nat :=
  fun j => if j = i then v else f j

/-- `binary.LittleEndian.Uint16(b)`: `uint16(b[0]) | uint16(b[1])<<8`. -/
def leUint16 (b0 b1 : Nat) : Nat :=
  b0 ||| (b1 <<< 8)

/-! ## Register file (`registers.go`) -/

def registerA : Nat := 1
def registerB : Nat := 3
def registerC : Nat := 2
def registerD : Nat := 5
def registerE : Nat := 4
def registerH : Nat := 7
def registerL : Nat := 6

def registerAF : Nat := 0
def registerBC : Nat := 2
def registerDE : Nat := 4
def registerHL : Nat := 6
def registerSP : Nat := 8

def flagZ : Nat := 7
def flagN : Nat := 6
def flagH : Nat := 5
def flagC : Nat := 4

/-- The 10-byte register store (`registers.Data`). -/
structure Registers where
  Data : Nat → Nat

/-- `registers.Read16` (little-endian pair). -/
def Registers.Read16 (r : Registers) (register : Nat) : Nat :=
  leUint16 (r.Data register) (r.Data (register + 1))

/-- `registers.Write16`; for AF the low nibble of F is forced to zero.
`binary.LittleEndian.PutUint16` stores `byte(v)` then `byte(v>>8)`. -/
def Registers.Write16 (r : Registers) (register : Nat) (v : Nat) : Registers :=
  let v := if register = registerAF then v &&& 0xFFF0 else v
  { Data := upd (upd r.Data register (v % 256)) (register + 1) ((v >>> 8) % 256) }

/-- `registers.Read1`: a flag bit of `Data[0]`. -/
def Registers.Read1 (r : Registers) (f : Nat) : Bool :=
  readBitN (r.Data 0) f

/-- `registers.Write1`. -/
def Registers.Write1 (r : Registers) (f : Nat) (v : Bool) : Registers :=
  { Data := upd r.Data 0 (writeBitN (r.Data 0) f v) }

/-! ## Timer controller (`timerController`) -/

/-- Timer register addresses 0xFF04..0xFF07; the backing slice is indexed
by `address - 0xFF04`. -/
def offsetTimerRegisters : Nat := 0xFF04

def registerFF04 : Nat := 0xFF04
def registerFF05 : Nat := 0xFF05
def registerFF06 : Nat := 0xFF06
def registerFF07 : Nat := 0xFF07

/-- `timerController`.  The `Interrupt *interruptSource` field is its
latched `pending` boolean. -/
structure Timer where
  registers : Nat → Nat
  incrementalTimer : Nat
  incrementalDivider : Nat
  interruptPending : Bool

def Timer.readRegister (t : Timer) (r : Nat) : Nat :=
  t.registers (r - offsetTimerRegisters)

def Timer.writeRegister (t : Timer) (r : Nat) (v : Nat) : Timer :=
  { t with registers := upd t.registers (r - offsetTimerRegisters) v }

/-- `timerController.Read8` (panics outside 0xFF04..0xFF07). -/
def Timer.Read8 (t : Timer) (address : Nat) : Option Nat :=
  if address = 0xFF04 then some (t.readRegister registerFF04)
  else if address = 0xFF05 then some (t.readRegister registerFF05)
  else if address = 0xFF06 then some (t.readRegister registerFF06)
  else if address = 0xFF07 then some (t.readRegister registerFF07)
  else none

/-- `timerController.Write8` (panics outside 0xFF04..0xFF07). -/
def Timer.Write8 (t : Timer) (address : Nat) (v : Nat) : Option Timer :=
  if address = 0xFF04 then
    some { t.writeRegister registerFF04 0 with incrementalDivider := 0 }
  else if address = 0xFF05 then some (t.writeRegister registerFF05 v)
  else if address = 0xFF06 then some (t.writeRegister registerFF06 v)
  else if address = 0xFF07 then
    some { t.writeRegister registerFF07 v with incrementalTimer := 0 }
  else none

/-- The per-cycle TIMA-accumulator increment selected by TAC bits 1..0
(the `switch mode` of `timerController.Cycle`; `mode` is masked with
`0x03` so the panicking `default` arm is unreachable and the last case
is the `else`). -/
def timaIncrement (tac : Nat) : Nat :=
  if tac &&& 0x03 = 0 then 1
  else if tac &&& 0x03 = 1 then 64
  else if tac &&& 0x03 = 2 then 16
  else 4

/-- `timerController.Cycle`.  The byte increments of DIV and TIMA wrap at
8 bits. -/
def Timer.Cycle (t : Timer) : Timer :=
  let t :=
    if t.incrementalDivider + 1 ≥ 256 then
      { t.writeRegister registerFF04 ((t.readRegister registerFF04 + 1) % 256) with
        incrementalDivider := 0 }
    else
      { t with incrementalDivider := t.incrementalDivider + 1 }
  let timerEnabled := readBitN (t.readRegister registerFF07) 2
  if timerEnabled then
    let inc := timaIncrement (t.readRegister registerFF07)
    let t :=
      if t.incrementalTimer + inc ≥ 256 then
        let t := { t with incrementalTimer := 0 }
        let t := t.writeRegister registerFF05 ((t.readRegister registerFF05 + 1) % 256)
        let interruptTriggered := t.readRegister registerFF05 = 0
        if interruptTriggered then
          { t.writeRegister registerFF05 (t.readRegister registerFF06) with
            interruptPending := true }
        else t
      else { t with incrementalTimer := t.incrementalTimer + inc }
    t
  else t

/-! ## Cartridge ROM with MBC1 banking (`rom`) -/

/-- The MBC1 cartridge.  `data` is the whole ROM image (a byte per index;
indices may exceed 65535 for images larger than 64 KiB). -/
structure Rom where
  data : Nat → Nat
  bankROMLow : Nat
  bankROMHighRAM : Nat
  bankRAMMode : Bool

/-- `rom.romBankNumber` (all byte-width `uint8` arithmetic). -/
def Rom.romBankNumber (r : Rom) : Nat :=
  let num := if r.bankROMLow = 0 then 1 else r.bankROMLow
  if !r.bankRAMMode then ((r.bankROMHighRAM <<< 5) ||| num) % 256 else num

/-- `rom.Read8`.  The bank-window index `0x4000*uint16(bank) + (address-0x4000)`
is computed in Go `uint16` arithmetic, so it is reduced modulo 65536 before
indexing `data`. -/
def Rom.Read8 (r : Rom) (address : Nat) : Option Nat :=
  if address ≤ 0x3FFF then
    some (r.data address)
  else if 0x4000 ≤ address ∧ address ≤ 0x7FFF then
    some (r.data ((0x4000 * r.romBankNumber + (address - 0x4000)) % 65536))
  else
    none

/-- `rom.Write8` (the MBC1 bank-select command interpreter). -/
def Rom.Write8 (r : Rom) (address : Nat) (v : Nat) : Option Rom :=
  if 0x2000 ≤ address ∧ address ≤ 0x3FFF then
    some { r with bankROMLow := v &&& 0x1F }
  else if 0x4000 ≤ address ∧ address ≤ 0x5FFF then
    some { r with bankROMHighRAM := v &&& 0x03 }
  else if 0x6000 ≤ address ∧ address ≤ 0x7FFF then
    some { r with bankRAMMode := readBitN v 0 }
  else
    none

/-! ## Video controller / PPU (`videoController`) -/

def offsetRegisters : Nat := 0xFF40
def offsetVRAM : Nat := 0x8000
def offsetOAM : Nat := 0xFE00

def registerFF40 : Nat := 0xFF40
def registerFF41 : Nat := 0xFF41
def registerFF42 : Nat := 0xFF42
def registerFF43 : Nat := 0xFF43
def registerFF44 : Nat := 0xFF44
def registerFF45 : Nat := 0xFF45
def registerFF47 : Nat := 0xFF47
def registerFF48 : Nat := 0xFF48
def registerFF49 : Nat := 0xFF49
def registerFF4A : Nat := 0xFF4A
def registerFF4B : Nat := 0xFF4B

/-- Shade constants (`white`, … `transparrent` — spelling as in the source). -/
def white : Nat := 0
def grayLight : Nat := 1
def grayDark : Nat := 2
def black : Nat := 3
def transparrent : Nat := 255

/-- `shadePriority` constants, ordered by priority. -/
def shadePriorityHidden : Nat := 0
def shadePriorityBackgroundZero : Nat := 1
def shadePrioritySpriteLow : Nat := 2
def shadePriorityBackgroundOther : Nat := 3
def shadePrioritySpriteHigh : Nat := 4

structure VideoFlag where
  register : Nat
  bitOffset : Nat

def flagVideoEnabled : VideoFlag := ⟨0xFF40, 7⟩
def flagBGWindowTileDataSelect : VideoFlag := ⟨0xFF40, 4⟩
def flagBGTileMapSelect : VideoFlag := ⟨0xFF40, 3⟩
def flagSpriteSize : VideoFlag := ⟨0xFF40, 2⟩
def flagSpriteDisplay : VideoFlag := ⟨0xFF40, 1⟩
def flagBGWindowDisplay : VideoFlag := ⟨0xFF40, 0⟩

/-- Go `uint8` subtraction (wraps at 8 bits; e.g. `7 - 8 = 255`). -/
def sub8 (a b : Nat) : Nat :=
  (a + 256 - b % 256) % 256

/-- `videoController`.  The two `interruptSource` handles are their
latched `pending` booleans; `frame` maps row and column to a shade. -/
structure Video where
  registers : Nat → Nat
  vram : Nat → Nat
  vramAccessible : Bool
  oam : Nat → Nat
  oamAccessible : Bool
  nextCycle : Nat
  screenY : Nat
  screenX : Nat
  windowY : Nat
  windowX : Nat
  frame : Nat → Nat → Nat
  frameReady : Bool
  lastLineCompare : Bool
  interruptVBlank : Bool
  interruptLCDCStatus : Bool

def Video.readRegister (s : Video) (r : Nat) : Nat :=
  s.registers (r - offsetRegisters)

def Video.writeRegister (s : Video) (r v : Nat) : Video :=
  { s with registers := upd s.registers (r - offsetRegisters) v }

def Video.readVRAM (s : Video) (address : Nat) : Nat :=
  s.vram (address - offsetVRAM)

def Video.readFlag (s : Video) (f : VideoFlag) : Bool :=
  readBitN (s.readRegister f.register) f.bitOffset

/-- `videoController.Read8` (register / OAM / VRAM dispatch). -/
def Video.Read8 (s : Video) (address : Nat) : Nat :=
  if address ≥ offsetRegisters then s.registers (address - offsetRegisters)
  else if 0xFE00 ≤ address ∧ address ≤ 0xFE9F then s.oam (address - offsetOAM)
  else s.vram (address - offsetVRAM)

/-- `videoController.Write8`.  Writes to 0xFF41 preserve the read-only
bits 0..2; 0xFF44 is read-only; 0xFF46 (OAM DMA) panics; OAM and VRAM
writes are dropped while the region is locked. -/
def Video.Write8 (s : Video) (address v : Nat) : Option Video :=
  if address ≥ offsetRegisters then
    if address = registerFF41 then
      let current := s.registers (address - offsetRegisters)
      some { s with registers := upd s.registers (address - offsetRegisters) (copyBits v current [0, 1, 2]) }
    else if address = registerFF44 then some s
    else if address = 0xFF46 then none
    else some { s with registers := upd s.registers (address - offsetRegisters) v }
  else if 0xFE00 ≤ address ∧ address ≤ 0xFE9F then
    some (if s.oamAccessible then { s with oam := upd s.oam (address - offsetOAM) v } else s)
  else
    some (if s.vramAccessible then { s with vram := upd s.vram (address - offsetVRAM) v } else s)

/-- `lookupShadeInPlatter`.  In Go, `platter >> 2 * colorNum` parses as
`(platter >> 2) * colorNum`: `>>` and `*` share precedence level 5 and
associate left to right. -/
def Video.lookupShadeInPlatter (_s : Video) (platter colorNum : Nat) : Nat :=
  ((platter >>> 2) * colorNum) &&& 0x03

/-- `lookupTileNumber`. -/
def Video.lookupTileNumber (s : Video) (y x : Nat) (tileMapSelect : Bool) : Nat :=
  let tileMapAddress := if tileMapSelect then 0x9C00 else 0x9800
  let offset := y / 8 * 32 + x / 8
  s.readVRAM (tileMapAddress + offset)

/-- `lookupTile`.  The bit offset `7 - tileX` is Go `uint8` arithmetic
(`sub8`), and the 8800-mode base address uses the signed tile number. -/
def Video.lookupTile (s : Video) (tileY tileX tileNumber : Nat) (tileDataSelect : Bool) : Nat :=
  let tileAddress :=
    if tileDataSelect then 0x8000 + 16 * tileNumber
    else offsetAddress 0x9000 (16 * int8OfByte tileNumber)
  let rowAddress := offsetAddress tileAddress (2 * (tileY : Int))
  let lowerByte := s.readVRAM rowAddress
  let higherByte := s.readVRAM (rowAddress + 1)
  let lowerBit := readBitN lowerByte (sub8 7 tileX)
  let higherBit := readBitN higherByte (sub8 7 tileX)
  writeBitN (writeBitN 0 0 lowerBit) 1 higherBit

/-- `calculateBackgroundShade`. -/
def Video.calculateBackgroundShade (s : Video) (backgroundY backgroundX : Nat) : Nat × Nat :=
  if !(s.readFlag flagBGWindowDisplay) then (transparrent, shadePriorityHidden)
  else
    let tileNumber := s.lookupTileNumber backgroundY backgroundX (s.readFlag flagBGTileMapSelect)
    let tileY := backgroundY % 8
    let tileX := backgroundX % 8
    let colorNum := s.lookupTile tileY tileX tileNumber (s.readFlag flagBGWindowTileDataSelect)
    let pr := if colorNum = 0 then shadePriorityBackgroundZero else shadePriorityBackgroundOther
    (s.lookupShadeInPlatter (s.readRegister registerFF47) colorNum, pr)

/-- Accumulator of the OAM scan loop in `calculateSpriteShade`
(`spritesFoundOnLine`, `match`, `matchY`, `matchX`, `matchTileNumber`,
`matchAttributes`; Go zero values as the initial state). -/
structure SpriteMatch where
  spritesFoundOnLine : Nat
  hit : Bool
  matchY : Int
  matchX : Int
  matchTileNumber : Nat
  matchAttributes : Nat

/-- The 40-entry OAM scan loop of `calculateSpriteShade`.  A later entry
with `matchX < x` is skipped (`continue`); note an entry with `x` equal
to the current match's x is *not* skipped and replaces the match. -/
def Video.spriteSearch (s : Video) (line dot spriteHeight spriteWidth : Int) : SpriteMatch :=
  (List.range 40).foldl
    (fun st spriteIdx =>
      if st.spritesFoundOnLine ≥ 10 then st
      else
        let offset := spriteIdx * 4
        let y : Int := (s.oam offset : Int) - 16
        let x : Int := (s.oam (offset + 1) : Int) - 8
        let tileNumber := s.oam (offset + 2)
        let attributes := s.oam (offset + 3)
        if y ≤ line ∧ line ≤ y + spriteHeight then
          let st := { st with spritesFoundOnLine := st.spritesFoundOnLine + 1 }
          if x ≤ dot ∧ dot ≤ x + spriteWidth then
            if st.hit ∧ st.matchX < x then st
            else
              { st with hit := true, matchY := y, matchX := x, matchTileNumber := tileNumber, matchAttributes := attributes }
          else st
        else st)
    ⟨0, false, 0, 0, 0, 0⟩

/-- `calculateSpriteShade`. -/
def Video.calculateSpriteShade (s : Video) (line dot : Int) : Nat × Nat :=
  if !(s.readFlag flagSpriteDisplay) then (transparrent, shadePriorityHidden)
  else
    let spriteWidth : Int := 8
    let spriteHeight : Int := if s.readFlag flagSpriteSize then 16 else 8
    let st := s.spriteSearch line dot spriteHeight spriteWidth
    if !st.hit then (transparrent, shadePriorityHidden)
    else
      let tileY := uint8OfInt (line - st.matchY)
      let tileX := uint8OfInt (dot - st.matchX)
      let tileY :=
        if readBitN st.matchAttributes 6 then sub8 (uint8OfInt spriteHeight) tileY else tileY
      let tileX :=
        if readBitN st.matchAttributes 5 then sub8 (uint8OfInt spriteWidth) tileX else tileX
      -- 8x16 stacked tile mode (`tileY - 8` cannot wrap: `tileY ≥ 8` there)
      let p :=
        if spriteHeight = 16 then
          if tileY ≤ 7 then (st.matchTileNumber &&& 0xFE, tileY)
          else (st.matchTileNumber ||| 0x01, tileY - 8)
        else (st.matchTileNumber, tileY)
      let colorNum := s.lookupTile p.2 tileX p.1 true
      if colorNum = 0 then (transparrent, shadePriorityHidden)
      else
        let pr :=
          if readBitN st.matchAttributes 7 then shadePrioritySpriteLow
          else shadePrioritySpriteHigh
        let platter :=
          if readBitN st.matchAttributes 4 then s.readRegister registerFF49
          else s.readRegister registerFF48
        (s.lookupShadeInPlatter platter colorNum, pr)

/-- `calculateShade`: sprite and background layers composited by
`shadePriority` (higher wins), falling back to white. -/
def Video.calculateShade (s : Video) (line dot : Nat) : Nat :=
  let backgroundX := (s.screenX + dot) % 256
  let backgroundY := (s.screenY + line) % 256
  let m0 : Nat × Nat := (white, shadePriorityHidden)
  let sp := s.calculateSpriteShade (line : Int) (dot : Int)
  let m1 := if sp.2 > m0.2 then sp else m0
  let bg := s.calculateBackgroundShade backgroundY backgroundX
  let m2 := if bg.2 > m1.2 then bg else m1
  m2.1

/-- `videoController.Cycle`.  Returns immediately when LCDC bit 7 is
clear; otherwise advances the dot counter, raises STAT/VBlank interrupts,
renders a pixel during mode 3 and updates LY (0xFF44) and STAT (0xFF41).
`lastLineCompare` is read but never written, exactly as in the source. -/
def Video.Cycle (s : Video) : Video :=
  if !(s.readFlag flagVideoEnabled) then s
  else
    let line := s.nextCycle / 456
    let dot := s.nextCycle % 456
    let s := { s with nextCycle := (s.nextCycle + 1) % (456 * 154) }
    let status := s.readRegister registerFF41
    let interruptLineCompareEnabled := readBitN status 6
    let interruptMode2Enabled := readBitN status 5
    let interruptMode1Enabled := readBitN status 4
    let interruptMode0Enabled := readBitN status 3
    let lineCompare := s.readRegister registerFF45
    let lineCompareEqual : Bool := lineCompare == line
    let lineCompareChanged : Bool := lineCompareEqual != s.lastLineCompare
    let s :=
      if interruptLineCompareEnabled && lineCompareEqual && lineCompareChanged then
        { s with interruptLCDCStatus := true }
      else s
    let s := { s with frameReady := false }
    let p : Video × Nat :=
      if line ≥ 144 then -- VBLANK
        let s :=
          if line = 144 ∧ dot = 0 then
            let s := { s with frameReady := true, interruptVBlank := true }
            if interruptMode1Enabled then { s with interruptLCDCStatus := true } else s
          else s
        ({ s with vramAccessible := true, oamAccessible := true }, 1)
      else if dot < 80 then -- Scanning OAM
        let s :=
          if dot = 0 then
            let s := { s with
              screenY := s.readRegister registerFF42,
              screenX := s.readRegister registerFF43,
              windowY := s.readRegister registerFF4A,
              windowX := s.readRegister registerFF4B }
            if interruptMode2Enabled then { s with interruptLCDCStatus := true } else s
          else s
        ({ s with vramAccessible := true, oamAccessible := false }, 2)
      else if dot < 80 + 168 then -- Write pixels
        let y := line % 256
        let x := (dot - 80) % 256
        let s :=
          if x < 160 then
            { s with frame := fun r c =>
                if r = y ∧ c = x then s.calculateShade y x else s.frame r c }
          else s
        ({ s with vramAccessible := false, oamAccessible := false }, 3)
      else -- HBLANK
        let s :=
          if dot = 80 + 168 then
            if interruptMode0Enabled then { s with interruptLCDCStatus := true } else s
          else s
        ({ s with vramAccessible := true, oamAccessible := true }, 0)
    let s := p.1
    let s := s.writeRegister registerFF44 (line % 256)
    let status := writeBitN (copyBits status p.2 [0, 1]) 2 lineCompareEqual
    s.writeRegister registerFF41 status

/-! ## Interrupt controller (`interruptController`) -/

/-- `interruptController`: IF (0xFF0F) and IE (0xFFFF).  The registered
`interruptSources` live in the peripherals; the drain with the concrete
wiring of `New` is `Mem.CheckSourcesForInterrupts` below. -/
structure Interrupt where
  interruptFlag : Nat
  interruptEnabled : Nat

/-- `interruptController.Read8`. -/
def Interrupt.Read8 (i : Interrupt) (address : Nat) : Option Nat :=
  if address = 0xFF0F then some i.interruptFlag
  else if address = 0xFFFF then some i.interruptEnabled
  else none

/-- `interruptController.Write8`. -/
def Interrupt.Write8 (i : Interrupt) (address v : Nat) : Option Interrupt :=
  if address = 0xFF0F then some { i with interruptFlag := v }
  else if address = 0xFFFF then some { i with interruptEnabled := v }
  else none

/-! ## Serial controller (`serialController`) -/

def offsetSerialRegisters : Nat := 0xFF01

/-- `serialController` (registers 0xFF01..0xFF02; `Interrupt` is the
latched pending boolean). -/
structure Serial where
  registers : Nat → Nat
  transferTicks : Nat
  interruptPending : Bool

def Serial.readRegister (s : Serial) (r : Nat) : Nat :=
  s.registers (r - offsetSerialRegisters)

def Serial.writeRegister (s : Serial) (r v : Nat) : Serial :=
  { s with registers := upd s.registers (r - offsetSerialRegisters) v }

def Serial.Read8 (s : Serial) (address : Nat) : Option Nat :=
  if address = 0xFF01 then some (s.readRegister 0xFF01)
  else if address = 0xFF02 then some (s.readRegister 0xFF02)
  else none

def Serial.Write8 (s : Serial) (address v : Nat) : Option Serial :=
  if address = 0xFF01 then some (s.writeRegister 0xFF01 v)
  else if address = 0xFF02 then some (s.writeRegister 0xFF02 v)
  else none

/-- `serialController.Cycle` with no data-out callback installed (the
default construction; the callback has no effect on machine state). -/
def Serial.Cycle (s : Serial) : Serial :=
  let control := s.readRegister 0xFF02
  let isMaster := readBitN control 0
  let transferRequested := readBitN control 7
  if !isMaster || !transferRequested then s
  else
    let s := { s with transferTicks := s.transferTicks + 1 }
    if s.transferTicks ≥ 1000 then
      let s := { s with transferTicks := 0 }
      let s := s.writeRegister 0xFF01 0xFF
      let s := s.writeRegister 0xFF02 (writeBitN control 7 false)
      { s with interruptPending := true }
    else s

/-! ## Joypad controller (`joypadController`) and sound stub -/

structure Joypad where
  inputArrows : Nat
  inputButton : Nat
  register : Nat
  interruptPending : Bool

def Joypad.Read8 (j : Joypad) (address : Nat) : Option Nat :=
  if address = 0xFF00 then
    let buttonSelected := readBitN j.register 5
    let arrowSelected := readBitN j.register 4
    let out := j.register
    let out := if buttonSelected then out ||| j.inputButton else out
    let out := if arrowSelected then out ||| j.inputArrows else out
    some out
  else none

def Joypad.Write8 (j : Joypad) (address v : Nat) : Option Joypad :=
  if address = 0xFF00 then some { j with register := v &&& 0xF0 }
  else none

/-- `soundController` stub: only the power-on bit (0xFF26). -/
structure Sound where
  powerOn : Bool

def Sound.Read8 (s : Sound) (address : Nat) : Option Nat :=
  if address = 0xFF26 then some (writeBitN 0 7 s.powerOn)
  else none

/-- `soundController.Write8` ignores all writes except 0xFF26. -/
def Sound.Write8 (s : Sound) (address v : Nat) : Sound :=
  if address = 0xFF26 then { powerOn := readBitN v 7 }
  else s

/-! ## Memory bus (`memory`, `ffPage`)

The two-level page dispatch follows `newMemory` / `newFFPage`: pages
0x00–0x7F → rom (page 0 overlaid by the boot ROM while loaded),
0x80–0x9F → video (VRAM), 0xA0–0xBF → external RAM, 0xC0–0xCF → WRAM 0,
0xD0–0xDF → WRAM 1, 0xE0–0xFD and 0xFE → nil (panic), 0xFF → the IO
page.  On the IO page: 0x01–0x02 serial, 0x04–0x07 timer, 0x0F
interrupt, 0x10–0x3F sound, 0x40–0x4B video, 0x80–0xFE HRAM, 0xFF
interrupt; the joypad (0xFF00) is wired per the machine construction in
the newest `emulator.go` (its matching `newMemory` variant is not among
the provided sources; the older `ffPage` had `nil` there, and no claim
touches 0xFF00). -/

structure Mem where
  rom : Rom
  bootROM : Nat → Nat
  isBootROMLoaded : Bool
  video : Video
  timer : Timer
  interrupt : Interrupt
  serial : Serial
  joypad : Joypad
  sound : Sound
  externalRAM : Nat → Nat
  wram0 : Nat → Nat
  wram1 : Nat → Nat
  hram : Nat → Nat

/-- `ffPage.Read8` (IO-page sub-dispatch on the low byte). -/
def Mem.ffRead8 (m : Mem) (address : Nat) : Option Nat :=
  let lo := address - 0xFF00
  if lo = 0x00 then m.joypad.Read8 address
  else if lo ≤ 0x02 then m.serial.Read8 address
  else if lo = 0x03 then none
  else if lo ≤ 0x07 then m.timer.Read8 address
  else if lo ≤ 0x0E then none
  else if lo = 0x0F then m.interrupt.Read8 address
  else if lo ≤ 0x3F then m.sound.Read8 address
  else if lo ≤ 0x4B then some (m.video.Read8 address)
  else if lo ≤ 0x7F then none
  else if lo ≤ 0xFE then some (m.hram (address - 0xFF80))
  else m.interrupt.Read8 address

/-- `ffPage.Write8`. -/
def Mem.ffWrite8 (m : Mem) (address v : Nat) : Option Mem :=
  let lo := address - 0xFF00
  if lo = 0x00 then (m.joypad.Write8 address v).map (fun j => { m with joypad := j })
  else if lo ≤ 0x02 then (m.serial.Write8 address v).map (fun s => { m with serial := s })
  else if lo = 0x03 then none
  else if lo ≤ 0x07 then (m.timer.Write8 address v).map (fun t => { m with timer := t })
  else if lo ≤ 0x0E then none
  else if lo = 0x0F then (m.interrupt.Write8 address v).map (fun i => { m with interrupt := i })
  else if lo ≤ 0x3F then some { m with sound := m.sound.Write8 address v }
  else if lo ≤ 0x4B then (m.video.Write8 address v).map (fun s => { m with video := s })
  else if lo ≤ 0x7F then none
  else if lo ≤ 0xFE then some { m with hram := upd m.hram (address - 0xFF80) v }
  else (m.interrupt.Write8 address v).map (fun i => { m with interrupt := i })

/-- `memory.UnloadBootROM` (restores the ROM beneath page 0). -/
def Mem.UnloadBootROM (m : Mem) : Mem :=
  { m with isBootROMLoaded := false }

/-- `memory.Read8`: the 0xFF50 special case, then page dispatch on the
high byte. -/
def Mem.Read8 (m : Mem) (address : Nat) : Option Nat :=
  if address = 0xFF50 then some 0
  else
    let page := address >>> 8
    if page ≤ 0x7F then
      if page = 0 ∧ m.isBootROMLoaded then some (m.bootROM address)
      else m.rom.Read8 address
    else if page ≤ 0x9F then some (m.video.Read8 address)
    else if page ≤ 0xBF then some (m.externalRAM (address - 0xA000))
    else if page ≤ 0xCF then some (m.wram0 (address - 0xC000))
    else if page ≤ 0xDF then some (m.wram1 (address - 0xD000))
    else if page ≤ 0xFD then none -- ECHO RAM page: no controller
    else if page = 0xFE then none -- OAM page: no controller
    else m.ffRead8 address

/-- `memory.Write8`.  While the boot ROM overlays page 0, a write there
goes to `bootROM.Write8`, which panics. -/
def Mem.Write8 (m : Mem) (address v : Nat) : Option Mem :=
  if address = 0xFF50 ∧ v = 0x01 then some m.UnloadBootROM
  else
    let page := address >>> 8
    if page ≤ 0x7F then
      if page = 0 ∧ m.isBootROMLoaded then none
      else (m.rom.Write8 address v).map (fun r => { m with rom := r })
    else if page ≤ 0x9F then (m.video.Write8 address v).map (fun s => { m with video := s })
    else if page ≤ 0xBF then some { m with externalRAM := upd m.externalRAM (address - 0xA000) v }
    else if page ≤ 0xCF then some { m with wram0 := upd m.wram0 (address - 0xC000) v }
    else if page ≤ 0xDF then some { m with wram1 := upd m.wram1 (address - 0xD000) v }
    else if page ≤ 0xFD then none
    else if page = 0xFE then none
    else m.ffWrite8 address v

/-- `memory.Read16` (little-endian; the second address wraps at 16 bits). -/
def Mem.Read16 (m : Mem) (address : Nat) : Option Nat := do
  let byteLow ← m.Read8 address
  let byteHigh ← m.Read8 ((address + 1) % 65536)
  pure (leUint16 byteLow byteHigh)

/-- `memory.Write16` (`byte(v)` then `byte(v>>8)`). -/
def Mem.Write16 (m : Mem) (address v : Nat) : Option Mem := do
  let m ← m.Write8 address (v % 256)
  m.Write8 ((address + 1) % 65536) ((v >>> 8) % 256)

/-! ## CPU interpreter (`cpu.go`) -/

/-- Go `uint16` subtraction (wraps at 16 bits). -/
def sub16 (a b : Nat) : Nat :=
  (a + 65536 - b % 65536) % 65536

/-- `imeState`. -/
inductive ImeState where
  | interruptsDisabled
  | interruptsEnabled
  | interruptsEnabledAfterCycle
  | interruptsEnabledAfterNextCycle
deriving DecidableEq, Repr

/-- `interruptAddresses` (indexed 0..4; the callers index with `i ≤ 4`,
so the final arm is the `else`). -/
def interruptAddresses (i : Nat) : Nat :=
  if i = 0 then 0x0040
  else if i = 1 then 0x0048
  else if i = 2 then 0x0050
  else if i = 3 then 0x0058
  else 0x0060

/-- `operandType`. -/
inductive OperandType where
  | operandD8
  | operandD16
  | operandA8
  | operandA8Ptr
  | operandA16
  | operandA16Ptr
  | operandR8
  | operandFlag
  | operandReg8
  | operandReg8Ptr
  | operandReg16
  | operandReg16Ptr
  | operandConst8
deriving DecidableEq, Repr

/-- `operand` (the `Type` field is `ty`; unused descriptor fields default
to their Go zero values). -/
structure Operand where
  ty : OperandType
  RefRegister8 : Nat := 0
  RefRegister16 : Nat := 0
  RefFlag : Nat := 0
  RefFlagNegate : Bool := false
  RefConst8 : Nat := 0
  IncrementReg16 : Bool := false
  DecrementReg16 : Bool := false
deriving DecidableEq, Repr

/-- `instruction` (the static descriptor). -/
structure Instruction where
  Mnemonic : String
  Size : Nat
  Cycles : List Nat
  Operands : List Operand
deriving DecidableEq, Repr

/-- Modelled from the spec: the table entry for opcode 0xF8
(`LD HL, SP+r8`, normalized to the `LDSP` mnemonic with operands `HL`,
`SP`, `r8`; two bytes, three machine cycles per the public opcode
table). -/
def ldspInstruction : Instruction :=
  { Mnemonic := "LDSP", Size := 2, Cycles := [3],
    Operands := [ { ty := .operandReg16, RefRegister16 := registerHL },
                  { ty := .operandReg16, RefRegister16 := registerSP },
                  { ty := .operandR8 } ] }

/-- Modelled from the spec: the generated instruction table
(`instructions` in the Go package, produced from the public opcode table
by the generator) is not among the provided sources.  Entries follow §6
of the specification: NOP (0x00), DI (0xF3) and EI (0xFB) are one byte
and one machine cycle with no operands.  Only the opcodes the claims
execute are modelled; the lookup yields `none` for the rest. -/
def instructions (opcode : Nat) : Option Instruction :=
  if opcode = 0x00 then
    some { Mnemonic := "NOP", Size := 1, Cycles := [1], Operands := [] }
  else if opcode = 0xF3 then
    some { Mnemonic := "DI", Size := 1, Cycles := [1], Operands := [] }
  else if opcode = 0xFB then
    some { Mnemonic := "EI", Size := 1, Cycles := [1], Operands := [] }
  else if opcode = 0xF8 then
    some ldspInstruction
  else none

/-- Modelled from the spec: the CB-prefixed table, likewise not among the
provided sources; no CB opcode is needed by the claims. -/
def cbInstructions (_opcode : Nat) : Option Instruction :=
  none

/-- `cpu`.  The `Memory` pointer is embedded as a field (the machine
state threads it explicitly). -/
structure Cpu where
  mem : Mem
  registers : Registers
  programCounter : Nat
  powerOn : Bool
  lowPowerMode : Bool
  interrupts : ImeState

/-- `cpu.read16` (operand reader). -/
def Cpu.read16 (c : Cpu) (op : Operand) : Option Nat :=
  match op.ty with
  | .operandD16 => c.mem.Read16 (sub16 c.programCounter 2)
  | .operandA16 => c.mem.Read16 (sub16 c.programCounter 2)
  | .operandReg16 => some (c.registers.Read16 op.RefRegister16)
  | .operandA8 => do
      let offset ← c.mem.Read8 (sub16 c.programCounter 1)
      some (0xFF00 + offset)
  | _ => none

/-- `cpu.write16` (operand writer). -/
def Cpu.write16 (c : Cpu) (op : Operand) (v : Nat) : Option Cpu :=
  match op.ty with
  | .operandReg16 => some { c with registers := c.registers.Write16 op.RefRegister16 v }
  | .operandA16Ptr => do
      let address ← c.mem.Read16 (sub16 c.programCounter 2)
      let m ← c.mem.Write8 address (v % 256)
      let m ← m.Write8 ((address + 1) % 65536) ((v >>> 8) % 256)
      some { c with mem := m }
  | _ => none

/-- `cpu.read8` (operand reader). -/
def Cpu.read8 (c : Cpu) (op : Operand) : Option Nat :=
  match op.ty with
  | .operandD8 => c.mem.Read8 (sub16 c.programCounter 1)
  | .operandReg8 => some (c.registers.Data op.RefRegister8)
  | .operandReg16Ptr => c.mem.Read8 (c.registers.Read16 op.RefRegister16)
  | .operandReg8Ptr => c.mem.Read8 (0xFF00 + c.registers.Data op.RefRegister8)
  | .operandA8Ptr => do
      let offset ← c.mem.Read8 (sub16 c.programCounter 1)
      c.mem.Read8 (0xFF00 + offset)
  | .operandA16Ptr => do
      let address ← c.mem.Read16 (sub16 c.programCounter 2)
      c.mem.Read8 address
  | _ => none

/-- `cpu.read8signed` (`int8` view of the byte at PC-1). -/
def Cpu.read8signed (c : Cpu) (op : Operand) : Option Int :=
  match op.ty with
  | .operandR8 => do
      let b ← c.mem.Read8 (sub16 c.programCounter 1)
      some (int8OfByte b)
  | _ => none

/-- `cpu.write8` (operand writer; the `Reg16Ptr` case reads the pair
bytes directly, which equals `Read16`). -/
def Cpu.write8 (c : Cpu) (op : Operand) (v : Nat) : Option Cpu :=
  match op.ty with
  | .operandReg8 => some { c with registers := ⟨upd c.registers.Data op.RefRegister8 v⟩ }
  | .operandReg16Ptr =>
      let address := leUint16 (c.registers.Data op.RefRegister16)
        (c.registers.Data (op.RefRegister16 + 1))
      (c.mem.Write8 address v).map (fun m => { c with mem := m })
  | .operandReg8Ptr =>
      (c.mem.Write8 (0xFF00 + c.registers.Data op.RefRegister8) v).map
        (fun m => { c with mem := m })
  | .operandA8Ptr => do
      let offset ← c.mem.Read8 (sub16 c.programCounter 1)
      let m ← c.mem.Write8 (0xFF00 + offset) v
      some { c with mem := m }
  | .operandA16Ptr => do
      let address ← c.mem.Read16 (sub16 c.programCounter 2)
      let m ← c.mem.Write8 address v
      some { c with mem := m }
  | _ => none

/-- `cpu.isFlagSet` (asserts the operand is a flag). -/
def Cpu.isFlagSet (c : Cpu) (op : Operand) : Option Bool :=
  if op.ty = .operandFlag then
    let condition := c.registers.Read1 op.RefFlag
    some (if op.RefFlagNegate then !condition else condition)
  else none

/-- `cpu.stackPush`: SP ← SP−2 (16-bit wrap), then a 16-bit write at the
new SP. -/
def Cpu.stackPush (c : Cpu) (v : Nat) : Option Cpu := do
  let sp := c.registers.Read16 registerSP
  let c := { c with registers := c.registers.Write16 registerSP (sub16 sp 2) }
  let m ← c.mem.Write16 (sub16 sp 2) v
  some { c with mem := m }

/-- `cpu.stackPop`. -/
def Cpu.stackPop (c : Cpu) : Option (Cpu × Nat) := do
  let sp := c.registers.Read16 registerSP
  let c := { c with registers := c.registers.Write16 registerSP ((sp + 2) % 65536) }
  let v ← c.mem.Read16 sp
  some (c, v)

/-- `cpu.execute`: the mnemonic switch, followed by the per-operand
post-increment/decrement pass and the cycle-count selection.  Only the
mnemonics the claims execute (plus the trivial HALT/STOP/ILLEGAL arms)
are translated; the remaining arms of the Go switch are untaken here and
modelled as `none` like the panicking `default`. -/
def Cpu.execute (c : Cpu) (inst : Instruction) : Option (Cpu × Bool) :=
  match inst.Mnemonic with
  | "ILLEGAL" => none
  | "NOP" => some (c, false)
  | "LDSP" => do
      let op0 ← inst.Operands[0]?
      let op1 ← inst.Operands[1]?
      let op2 ← inst.Operands[2]?
      guard (op0.ty = .operandReg16)
      guard (op1.ty = .operandReg16)
      guard (op2.ty = .operandR8)
      let sp ← c.read16 op1
      let r8 ← c.read8signed op2
      let v := offsetAddress sp r8
      let c ← c.write16 op0 v
      let carry := decide (v &&& 0xFF < sp &&& 0xFF)
      let halfcarry := decide (v &&& 0xF < sp &&& 0xF)
      let registers := (((c.registers.Write1 flagZ false).Write1 flagN
        false).Write1 flagH halfcarry).Write1 flagC carry
      some ({ c with registers := registers }, false)
  | "DI" => some ({ c with interrupts := .interruptsDisabled }, false)
  | "EI" => some ({ c with interrupts := .interruptsEnabledAfterNextCycle }, false)
  | "HALT" => some ({ c with lowPowerMode := true }, false)
  | "STOP" => some ({ c with powerOn := false }, false)
  | _ => none

/-- The post-execution operand pass of `cpu.execute` (16-bit
post-increment / post-decrement, wrapping at 16 bits). -/
def Cpu.postIncrementDecrement (c : Cpu) (inst : Instruction) : Option Cpu :=
  inst.Operands.foldlM
    (fun (c : Cpu) op => do
      if op.IncrementReg16 || op.DecrementReg16 then
        guard (op.ty = .operandReg16 ∨ op.ty = .operandReg16Ptr)
        let address := c.registers.Read16 op.RefRegister16
        let address := if op.IncrementReg16 then (address + 1) % 65536 else sub16 address 1
        pure { c with registers := c.registers.Write16 op.RefRegister16 address }
      else pure c)
    c

/-- `cpu.execute`'s return value: `Cycles[1]` if the conditional action
was taken and an alternative count exists, else `Cycles[0]`. -/
def Cpu.executeFull (c : Cpu) (inst : Instruction) : Option (Cpu × Nat) := do
  let (c, actionTaken) ← c.execute inst
  let c ← c.postIncrementDecrement inst
  if actionTaken ∧ inst.Cycles.length > 1 then do
    let cy ← inst.Cycles[1]?
    pure (c, cy)
  else do
    let cy ← inst.Cycles[0]?
    pure (c, cy)

/-- The unrolled `for i := 0; i <= 4; i++` bit search of
`cpu.readAndClearInterrupt`. -/
def firstPendingBit (enabledAndPending : Nat) : Option Nat :=
  if readBitN enabledAndPending 0 then some 0
  else if readBitN enabledAndPending 1 then some 1
  else if readBitN enabledAndPending 2 then some 2
  else if readBitN enabledAndPending 3 then some 3
  else if readBitN enabledAndPending 4 then some 4
  else none

/-- `cpu.readAndClearInterrupt`.  `some (c, none)` is Go's `ok == false`;
`some (c, some address)` means an interrupt is to be serviced and its IF
bit has been cleared. -/
def Cpu.readAndClearInterrupt (c : Cpu) : Option (Cpu × Option Nat) := do
  if c.interrupts ≠ ImeState.interruptsEnabled then return (c, none)
  let interruptEnabled ← c.mem.Read8 0xFFFF
  let interruptPending ← c.mem.Read8 0xFF0F
  let enabledAndPending := interruptEnabled &&& interruptPending
  if enabledAndPending = 0 then return (c, none)
  match firstPendingBit enabledAndPending with
  | some i => do
      let m ← c.mem.Write8 0xFF0F (writeBitN interruptPending i false)
      return ({ c with mem := m }, some (interruptAddresses i))
  | none => return (c, none)

/-- `cpu.shouldWakeFromLowPowerMode`: an interrupt is pending and
enabled, regardless of IME. -/
def Cpu.shouldWakeFromLowPowerMode (c : Cpu) : Option Bool := do
  let interruptEnabled ← c.mem.Read8 0xFFFF
  let interruptPending ← c.mem.Read8 0xFF0F
  return (interruptEnabled &&& interruptPending > 0)

/-- `cpu.Cycle` after the low-power check: interrupt service or
fetch/decode/execute plus the IME two-step advance. -/
def Cpu.cycleAwake (c : Cpu) : Option (Cpu × Nat) := do
  let (c, serviced) ← c.readAndClearInterrupt
  match serviced with
  | some address => do
      let c := { c with interrupts := .interruptsDisabled }
      let c ← c.stackPush c.programCounter
      return ({ c with programCounter := address }, 5)
  | none => do
      let opcode ← c.mem.Read8 c.programCounter
      let inst ←
        if opcode = 0xCB then do
          let opcode2 ← c.mem.Read8 ((c.programCounter + 1) % 65536)
          cbInstructions opcode2
        else instructions opcode
      let c := { c with programCounter := (c.programCounter + inst.Size) % 65536 }
      let (c, cycles) ← c.executeFull inst
      let c :=
        if c.interrupts = .interruptsEnabledAfterNextCycle then
          { c with interrupts := .interruptsEnabledAfterCycle }
        else if c.interrupts = .interruptsEnabledAfterCycle then
          { c with interrupts := .interruptsEnabled }
        else c
      return (c, cycles)

/-- `cpu.Cycle`. -/
def Cpu.Cycle (c : Cpu) : Option (Cpu × Nat) := do
  if c.lowPowerMode then
    let wake ← c.shouldWakeFromLowPowerMode
    if wake then Cpu.cycleAwake { c with lowPowerMode := false }
    else return (c, 1)
  else Cpu.cycleAwake c

/-! ## Machine assembly and scheduler (`emulator.go`) -/

/-- `interruptController.CheckSourcesForInterrupts`, with the source
wiring performed by `New`: index 0 (VBLANK) and index 1 (LCD stat) are
registered as `nil` and skipped by the loop; index 2 is the timer's
source, 3 the serial's, 4 the joypad's.  `ReadAndClear` clears each
registered source and IF bit `i` is set when source `i` was pending. -/
def Mem.CheckSourcesForInterrupts (m : Mem) : Mem :=
  let p2 := m.timer.interruptPending
  let m := { m with timer := { m.timer with interruptPending := false } }
  let m :=
    if p2 then
      { m with interrupt := { m.interrupt with interruptFlag := writeBitN m.interrupt.interruptFlag 2 true } }
    else m
  let p3 := m.serial.interruptPending
  let m := { m with serial := { m.serial with interruptPending := false } }
  let m :=
    if p3 then
      { m with interrupt := { m.interrupt with interruptFlag := writeBitN m.interrupt.interruptFlag 3 true } }
    else m
  let p4 := m.joypad.interruptPending
  let m := { m with joypad := { m.joypad with interruptPending := false } }
  let m :=
    if p4 then
      { m with interrupt := { m.interrupt with interruptFlag := writeBitN m.interrupt.interruptFlag 4 true } }
    else m
  m

/-- The machine: the CPU (owning the shared memory) plus the scheduler's
idle-cycle budget. -/
structure Machine where
  cpu : Cpu
  cpuIdleCycles : Nat

/-- One iteration of the `Emulator.Run` loop, without the frame-channel
delivery and the wall-clock throttle: CPU step (or idle-budget
decrement), then Video, Timer and Serial cycles, then the interrupt
drain.  `Cycle() - 1` cannot underflow (every cycle count is ≥ 1). -/
def Machine.tick (mach : Machine) : Option Machine := do
  let (c, idle) ←
    if mach.cpuIdleCycles > 0 then pure (mach.cpu, mach.cpuIdleCycles - 1)
    else do
      let (c, cycles) ← mach.cpu.Cycle
      pure (c, cycles - 1)
  let mem := c.mem
  let mem := { mem with video := mem.video.Cycle }
  let mem := { mem with timer := mem.timer.Cycle }
  let mem := { mem with serial := mem.serial.Cycle }
  let mem := mem.CheckSourcesForInterrupts
  return { cpu := { c with mem := mem }, cpuIdleCycles := idle }

/-- Concrete PPU state exercising the background shade path: BG/Window
enabled (LCDC bit 0), sprites disabled, `BGP = 0x01`, VRAM all zero (so
the tile lookup yields color index 0). -/
def videoC2 : Video where
  registers := fun i => if i = 0 then 0x01 else if i = 7 then 0x01 else 0
  vram := fun _ => 0
  vramAccessible := true
  oam := fun _ => 0
  oamAccessible := true
  nextCycle := 0
  screenY := 0
  screenX := 0
  windowY := 0
  windowX := 0
  frame := fun _ _ => 0
  frameReady := false
  lastLineCompare := false
  interruptVBlank := false
  interruptLCDCStatus := false

/-- Concrete PPU state exercising the sprite selection: sprites enabled
(LCDC bit 1), 8×8 size, `OBP0 = 0xE4`; OAM entry 0 is `(y=16, x=8,
tile=0, attr=0)` and OAM entry 1 is `(y=16, x=8, tile=1, attr=0)` — both
at adjusted position (0, 0).  Tile 0's row 0 has color 1 everywhere,
tile 1's row 0 has color 2 everywhere. -/
def videoC4a : Video where
  registers := fun i => if i = 0 then 0x02 else if i = 8 then 0xE4 else 0
  vram := fun i => if i = 0 then 0xFF else if i = 0x11 then 0xFF else 0
  vramAccessible := true
  oam := fun i =>
    if i = 0 then 16 else if i = 1 then 8
    else if i = 4 then 16 else if i = 5 then 8 else if i = 6 then 1 else 0
  oamAccessible := true
  nextCycle := 0
  screenY := 0
  screenX := 0
  windowY := 0
  windowX := 0
  frame := fun _ _ => 0
  frameReady := false
  lastLineCompare := false
  interruptVBlank := false
  interruptLCDCStatus := false

/-- Like `videoC4a` but with only OAM entry 0 `(y=16, x=8, tile=0,
attr=0)`, i.e. an 8×8 sprite covering lines 0..7; VRAM byte 0x8010 (the
row that `tileY = 8` reads) has color 1 everywhere. -/
def videoC4b : Video where
  registers := fun i => if i = 0 then 0x02 else if i = 8 then 0xE4 else 0
  vram := fun i => if i = 0 then 0xFF else if i = 0x10 then 0xFF else 0
  vramAccessible := true
  oam := fun i => if i = 0 then 16 else if i = 1 then 8 else 0
  oamAccessible := true
  nextCycle := 0
  screenY := 0
  screenX := 0
  windowY := 0
  windowX := 0
  frame := fun _ _ => 0
  frameReady := false
  lastLineCompare := false
  interruptVBlank := false
  interruptLCDCStatus := false

/-- Concrete PPU state with the LCD disabled (LCDC bit 7 clear), frozen
mid-frame at `nextCycle = 1234`. -/
def videoC10 : Video where
  registers := fun i => if i = 1 then 0x02 else 0
  vram := fun _ => 0
  vramAccessible := true
  oam := fun _ => 0
  oamAccessible := false
  nextCycle := 1234
  screenY := 0
  screenX := 0
  windowY := 0
  windowX := 0
  frame := fun _ _ => 0
  frameReady := false
  lastLineCompare := false
  interruptVBlank := false
  interruptLCDCStatus := false

/-! ## Concrete machine states for the CPU / machine claims -/

/-- A fresh video controller (`newVideoController` state). -/
def videoZero : Video where
  registers := fun _ => 0
  vram := fun _ => 0
  vramAccessible := true
  oam := fun _ => 0
  oamAccessible := true
  nextCycle := 0
  screenY := 0
  screenX := 0
  windowY := 0
  windowX := 0
  frame := fun _ _ => 0
  frameReady := false
  lastLineCompare := false
  interruptVBlank := false
  interruptLCDCStatus := false

def timerZero : Timer := ⟨fun _ => 0, 0, 0, false⟩

def serialZero : Serial := ⟨fun _ => 0, 0, false⟩

def joypadZero : Joypad := ⟨0, 0, 0, false⟩

/-- A machine memory with the given ROM image, fresh controllers and
zeroed RAM. -/
def memWithRom (image : Nat → Nat) : Mem where
  rom := ⟨image, 0, 0, false⟩
  bootROM := fun _ => 0
  isBootROMLoaded := false
  video := videoZero
  timer := timerZero
  interrupt := ⟨0, 0⟩
  serial := serialZero
  joypad := joypadZero
  sound := ⟨false⟩
  externalRAM := fun _ => 0
  wram0 := fun _ => 0
  wram1 := fun _ => 0
  hram := fun _ => 0

/-- CPU about to execute `EI; NOP; DI` at 0x0100, with IF = IE = 0. -/
def cpuC6 : Cpu where
  mem := memWithRom fun a =>
    if a = 0x100 then 0xFB else if a = 0x101 then 0x00 else if a = 0x102 then 0xF3 else 0
  registers := ⟨fun _ => 0⟩
  programCounter := 0x0100
  powerOn := true
  lowPowerMode := false
  interrupts := .interruptsDisabled

/-- The CPU after each of the three `cpuC6` cycles. -/
def cpuC6a : Cpu := ((cpuC6.Cycle).getD (cpuC6, 0)).1

def cpuC6b : Cpu := ((cpuC6a.Cycle).getD (cpuC6a, 0)).1

def cpuC6c : Cpu := ((cpuC6b.Cycle).getD (cpuC6b, 0)).1

/-- `cpuC6c` with an enabled, pending VBlank interrupt injected
(IF = IE = 0x01). -/
def cpuC6pending : Cpu :=
  { cpuC6c with mem := { cpuC6c.mem with interrupt := ⟨0x01, 0x01⟩ } }

/-- CPU with IME enabled and `IF = IE = 0x20`: `IF & IE` is nonzero but
only bit 5 — not one of the five interrupt sources — is set.  The ROM is
all `0x00` (NOP). -/
def cpuC5bad : Cpu where
  mem := { memWithRom (fun _ => 0) with interrupt := ⟨0x20, 0x20⟩ }
  registers := ⟨fun _ => 0⟩
  programCounter := 0x0100
  powerOn := true
  lowPowerMode := false
  interrupts := .interruptsEnabled

/-- PPU one cycle before entering VBlank: LCD enabled (`LCDC = 0x91`,
the post-boot value) and `nextCycle = 144 * 456`. -/
def videoC1 : Video :=
  let v := { videoZero with nextCycle := 144 * 456 }
  { v with registers := fun i => if i = 0 then 0x91 else 0 }

/-- CPU with IME enabled, `IF = IE = 0x04` (Timer pending and enabled),
`SP = 0xD000` (in WRAM) and `PC = 0x1234`. -/
def cpuC5good : Cpu where
  mem := { memWithRom (fun _ => 0) with interrupt := ⟨0x04, 0x04⟩ }
  registers := ⟨fun i => if i = 9 then 0xD0 else 0⟩
  programCounter := 0x1234
  powerOn := true
  lowPowerMode := false
  interrupts := .interruptsEnabled

/-- CPU about to execute `LD HL, SP+r8` (opcode `0xF8`) with offset byte
`0xFF` (that is, -1) and `SP = 0x0001`, so the add carries out of both
bit 3 and bit 7. -/
def cpuC7 : Cpu where
  mem := memWithRom fun a =>
    if a = 0x100 then 0xF8 else if a = 0x101 then 0xFF else 0
  registers := ⟨fun i => if i = 8 then 0x01 else 0⟩
  programCounter := 0x0100
  powerOn := true
  lowPowerMode := false
  interrupts := .interruptsDisabled

/-- Machine one tick before the PPU enters VBlank: CPU idle for this
tick, no pending requests anywhere, IF = IE = 0. -/
def machineC1 : Machine where
  cpu :=
    { mem := { memWithRom (fun _ => 0) with video := videoC1 }
      registers := ⟨fun _ => 0⟩
      programCounter := 0x0100
      powerOn := true
      lowPowerMode := false
      interrupts := .interruptsDisabled }
  cpuIdleCycles := 5

/-- The register file produced by the `LDSP` arm of `cpu.execute`
(HL write followed by the four flag writes). -/
def ldspRegisters (r : Registers) (off : Nat) : Registers :=
  let sp := r.Read16 registerSP
  let v := offsetAddress sp (int8OfByte off)
  ((((r.Write16 registerHL v).Write1 flagZ false).Write1 flagN false).Write1 flagH
      (decide (v &&& 0xF < sp &&& 0xF))).Write1 flagC (decide (v &&& 0xFF < sp &&& 0xFF))

/-! # Theorems

Shared helper lemmas first, then one theorem (plus witness or
counterexample material) per claim.  -/

theorem leUint16_eq (a b : Nat) (h : a < 256) : leUint16 a b = 256 * b + a := by
  unfold leUint16
  rw [Nat.shiftLeft_eq, Nat.or_comm, Nat.mul_comm]
  have h2 : a < 2 ^ 8 := h
  exact (Nat.mul_add_lt_is_or h2 b).symm

theorem upd_apply (f : Nat → Nat) (i v j : Nat) :
    upd f i v j = if j = i then v else f j := rfl

theorem readBitN_eq_testBit (b n : Nat) : readBitN b n = b.testBit n := by
  unfold readBitN
  rw [Nat.one_shiftLeft, Nat.and_two_pow]
  cases h : b.testBit n <;> simp [h]

theorem testBit_ff_of_lt (g : Nat) (hg : g < 8) : (0xFF : Nat).testBit g = true := by
  have h : (0xFF : Nat) = 2 ^ 8 - 1 := by norm_num
  rw [h, Nat.testBit_two_pow_sub_one]
  simpa using hg

theorem readBitN_writeBitN (b f g : Nat) (v : Bool) (hg : g < 8) :
    readBitN (writeBitN b f v) g = if g = f then v else readBitN b g := by
  simp only [readBitN_eq_testBit]
  unfold writeBitN
  cases v
  · simp only [Bool.false_eq_true, if_false]
    rw [Nat.one_shiftLeft, Nat.testBit_and, Nat.testBit_xor, Nat.testBit_two_pow,
      testBit_ff_of_lt g hg]
    by_cases hgf : g = f
    · subst hgf
      simp
    · have hfg : f ≠ g := fun h => hgf h.symm
      simp [hgf, hfg]
  · simp only [if_true]
    rw [Nat.one_shiftLeft, Nat.testBit_or, Nat.testBit_two_pow]
    by_cases hgf : g = f
    · subst hgf
      simp
    · have hfg : f ≠ g := fun h => hgf h.symm
      simp [hgf, hfg]

theorem read1_write1 (r : Registers) (f g : Nat) (v : Bool) (hg : g < 8) :
    (r.Write1 f v).Read1 g = if g = f then v else r.Read1 g := by
  unfold Registers.Write1 Registers.Read1
  simp [upd_apply, readBitN_writeBitN _ _ _ _ hg]

theorem read16_write1 (r : Registers) (f : Nat) (v : Bool) (reg : Nat) (hreg : reg ≠ 0) :
    (r.Write1 f v).Read16 reg = r.Read16 reg := by
  unfold Registers.Write1 Registers.Read16
  simp [upd_apply, hreg]

theorem registers_write16_read16 (r : Registers) (reg v : Nat)
    (hreg : reg ≠ registerAF) (hv : v < 65536) :
    (r.Write16 reg v).Read16 reg = v := by
  unfold Registers.Write16 Registers.Read16
  rw [if_neg hreg]
  have hne : reg ≠ reg + 1 := by omega
  simp only [upd_apply, if_pos rfl, if_neg hne, if_true]
  rw [leUint16_eq _ _ (Nat.mod_lt _ (by norm_num)), Nat.shiftRight_eq_div_pow]
  have h256 : v / 2 ^ 8 < 256 := by omega
  rw [Nat.mod_eq_of_lt h256]
  have := Nat.div_add_mod v (2 ^ 8)
  omega

theorem offsetAddress_int8_cases (sp off : Nat) (hoff : off < 256) :
    offsetAddress sp (int8OfByte off)
      = if off < 128 then (sp + off) % 65536 else (sp + off + 65280) % 65536 := by
  unfold offsetAddress int8OfByte
  rw [Nat.mod_eq_of_lt hoff]
  by_cases h1 : off < 128
  · rw [if_pos h1, if_pos h1]
    by_cases h2 : ((off : Int) > 0)
    · rw [if_pos h2]
      norm_num
    · have hz : off = 0 := by omega
      subst hz
      norm_num
  · rw [if_neg h1, if_neg h1]
    have hneg : ¬ ((off : Int) - 256 > 0) := by omega
    rw [if_neg hneg]
    have htn : (-((off : Int) - 256)).toNat = 256 - off := by omega
    rw [htn]
    have hm : (256 - off) % 65536 = 256 - off := by omega
    rw [hm]
    omega

theorem offsetAddress_int8_mod256 (sp off : Nat) (hoff : off < 256) :
    offsetAddress sp (int8OfByte off) % 256 = (sp + off) % 256 := by
  rw [offsetAddress_int8_cases sp off hoff]
  by_cases h1 : off < 128 <;> simp only [h1, if_true, if_false] <;> omega

theorem offsetAddress_int8_int (sp off : Nat) (hoff : off < 256) :
    (offsetAddress sp (int8OfByte off) : Int) = ((sp : Int) + int8OfByte off) % 65536 := by
  rw [offsetAddress_int8_cases sp off hoff]
  unfold int8OfByte
  rw [Nat.mod_eq_of_lt hoff]
  by_cases h1 : off < 128 <;> simp only [h1, if_true, if_false] <;> push_cast <;> omega

theorem offsetAddress_lt (base : Nat) (offset : Int) :
    offsetAddress base offset < 65536 := by
  unfold offsetAddress
  by_cases h : offset > 0 <;> simp [h] <;> omega

theorem leUint16_split (v : Nat) (hv : v < 65536) :
    leUint16 (v % 256) ((v >>> 8) % 256) = v := by
  rw [leUint16_eq _ _ (Nat.mod_lt _ (by norm_num)), Nat.shiftRight_eq_div_pow]
  have h256 : v / 2 ^ 8 < 256 := by omega
  rw [Nat.mod_eq_of_lt h256]
  have := Nat.div_add_mod v (2 ^ 8)
  omega

theorem readBitN_div_mod (e j : Nat) : readBitN e j = decide (e / 2 ^ j % 2 = 1) := by
  rw [readBitN_eq_testBit, Nat.testBit_to_div_mod]

theorem firstPendingBit_spec (e : Nat) (h : e &&& 0x1F ≠ 0) :
    ∃ i, firstPendingBit e = some i ∧ i ≤ 4 ∧ readBitN e i = true ∧
      ∀ j, j < i → readBitN e j = false := by
  have hmod : e % 32 ≠ 0 := by
    have h2 := Nat.and_pow_two_sub_one_eq_mod e 5
    norm_num at h2
    rw [h2] at h
    exact h
  by_cases h0 : readBitN e 0
  · exact ⟨0, by simp [firstPendingBit, h0], by omega, h0, fun j hj => by omega⟩
  · by_cases h1 : readBitN e 1
    · refine ⟨1, by simp [firstPendingBit, h0, h1], by omega, h1, fun j hj => ?_⟩
      have : j = 0 := by omega
      subst this
      simpa using h0
    · by_cases h2 : readBitN e 2
      · refine ⟨2, by simp [firstPendingBit, h0, h1, h2], by omega, h2, fun j hj => ?_⟩
        interval_cases j <;> simp_all
      · by_cases h3 : readBitN e 3
        · refine ⟨3, by simp [firstPendingBit, h0, h1, h2, h3], by omega, h3, fun j hj => ?_⟩
          interval_cases j <;> simp_all
        · by_cases h4 : readBitN e 4
          · refine ⟨4, by simp [firstPendingBit, h0, h1, h2, h3, h4], by omega, h4,
              fun j hj => ?_⟩
            interval_cases j <;> simp_all
          · exfalso
            rw [readBitN_div_mod] at h0 h1 h2 h3 h4
            simp only [decide_eq_true_eq] at h0 h1 h2 h3 h4
            norm_num at h0 h1 h2 h3 h4
            omega

theorem mem_read8_FFFF (m : Mem) : m.Read8 0xFFFF = some m.interrupt.interruptEnabled := rfl

theorem mem_read8_FF0F (m : Mem) : m.Read8 0xFF0F = some m.interrupt.interruptFlag := rfl

theorem mem_write8_FF0F (m : Mem) (v : Nat) :
    m.Write8 0xFF0F v
      = some { m with interrupt := { m.interrupt with interruptFlag := v } } := rfl

theorem mem_write8_wram (m : Mem) (a v : Nat) (h1 : 0xC000 ≤ a) (h2 : a ≤ 0xDFFF) :
    m.Write8 a v = some (if a ≤ 0xCFFF
      then { m with wram0 := upd m.wram0 (a - 0xC000) v }
      else { m with wram1 := upd m.wram1 (a - 0xD000) v }) := by
  have hff50 : ¬(a = 0xFF50 ∧ v = 0x01) := by omega
  have hshift : a >>> 8 = a / 256 := by
    rw [Nat.shiftRight_eq_div_pow]
  by_cases hc : a ≤ 0xCFFF
  · rw [if_pos hc]
    simp only [Mem.Write8, hshift]
    rw [if_neg hff50, if_neg (by omega), if_neg (by omega), if_neg (by omega), if_pos (by omega)]
  · rw [if_neg hc]
    simp only [Mem.Write8, hshift]
    rw [if_neg hff50, if_neg (by omega), if_neg (by omega), if_neg (by omega), if_neg (by omega),
      if_pos (by omega)]

theorem mem_read8_wram (m : Mem) (a : Nat) (h1 : 0xC000 ≤ a) (h2 : a ≤ 0xDFFF) :
    m.Read8 a = some (if a ≤ 0xCFFF
      then m.wram0 (a - 0xC000)
      else m.wram1 (a - 0xD000)) := by
  have hff50 : ¬(a = 0xFF50) := by omega
  have hshift : a >>> 8 = a / 256 := by
    rw [Nat.shiftRight_eq_div_pow]
  by_cases hc : a ≤ 0xCFFF
  · rw [if_pos hc]
    simp only [Mem.Read8, hshift]
    rw [if_neg hff50, if_neg (by omega), if_neg (by omega), if_neg (by omega), if_pos (by omega)]
  · rw [if_neg hc]
    simp only [Mem.Read8, hshift]
    rw [if_neg hff50, if_neg (by omega), if_neg (by omega), if_neg (by omega), if_neg (by omega),
      if_pos (by omega)]

theorem cpu_cycle_awake_eq (c : Cpu) (h : c.lowPowerMode = false) :
    c.Cycle = c.cycleAwake := by
  unfold Cpu.Cycle
  rw [h]
  rfl

theorem readAndClear_pending (c : Cpu) (i : Nat)
    (h1 : c.interrupts = .interruptsEnabled)
    (h2 : c.mem.interrupt.interruptEnabled &&& c.mem.interrupt.interruptFlag ≠ 0)
    (h3 : firstPendingBit (c.mem.interrupt.interruptEnabled &&& c.mem.interrupt.interruptFlag)
      = some i) :
    c.readAndClearInterrupt = some ({ c with mem := { c.mem with interrupt := { c.mem.interrupt with interruptFlag := writeBitN c.mem.interrupt.interruptFlag i false } } }, some (interruptAddresses i)) := by
  unfold Cpu.readAndClearInterrupt
  rw [h1]
  simp only [ne_eq, not_true_eq_false, Bool.false_eq_true, if_false, reduceIte,
    mem_read8_FFFF, mem_read8_FF0F, Option.bind_eq_bind, Option.some_bind]
  rw [if_neg h2, h3]
  simp [mem_write8_FF0F]

theorem cycleAwake_service (c c2 : Cpu) (address : Nat)
    (h : c.readAndClearInterrupt = some (c2, some address)) :
    c.cycleAwake = ({ c2 with interrupts := .interruptsDisabled }.stackPush
        c2.programCounter).bind
      (fun c3 => some ({ c3 with programCounter := address }, 5)) := by
  unfold Cpu.cycleAwake
  rw [h]
  simp

theorem mem_write16_read16_wram0 (m : Mem) (a v : Nat)
    (ha1 : 0xC000 ≤ a) (ha2 : a + 1 ≤ 0xCFFF) (hv : v < 65536) :
    ∃ m', m.Write16 a v = some m' ∧ m'.Read16 a = some v ∧
      m'.interrupt = m.interrupt := by
  have ha3 : (a + 1) % 65536 = a + 1 := by omega
  have h1 : m.Write8 a (v % 256)
      = some { m with wram0 := upd m.wram0 (a - 0xC000) (v % 256) } := by
    rw [mem_write8_wram m a _ ha1 (by omega), if_pos (by omega : a ≤ 0xCFFF)]
  set m1 : Mem := { m with wram0 := upd m.wram0 (a - 0xC000) (v % 256) } with hm1
  have h2 : m1.Write8 ((a + 1) % 65536) ((v >>> 8) % 256)
      = some { m1 with wram0 := upd m1.wram0 (a + 1 - 0xC000) ((v >>> 8) % 256) } := by
    rw [ha3, mem_write8_wram m1 (a + 1) _ (by omega) (by omega), if_pos (by omega)]
  set m2 : Mem := { m1 with wram0 := upd m1.wram0 (a + 1 - 0xC000) ((v >>> 8) % 256) } with hm2
  have hij : ¬ (a - 0xC000 = a + 1 - 0xC000) := by omega
  refine ⟨m2, ?_, ?_, ?_⟩
  · unfold Mem.Write16
    simp only [Option.bind_eq_bind, h1, Option.some_bind, h2]
  · unfold Mem.Read16
    rw [mem_read8_wram m2 a (by omega) (by omega), if_pos (by omega : a ≤ 0xCFFF)]
    rw [ha3, mem_read8_wram m2 (a + 1) (by omega) (by omega), if_pos (by omega)]
    simp only [Option.bind_eq_bind, Option.some_bind, upd_apply, if_neg hij, if_pos rfl,
      if_true]
    rw [leUint16_split v hv]
    rfl
  · rw [hm2, hm1]

theorem stackPush_wram (c : Cpu) (v : Nat) (hv : v < 65536)
    (hsp1 : 0xC002 ≤ c.registers.Read16 registerSP)
    (hsp2 : c.registers.Read16 registerSP ≤ 0xD000) :
    ∃ c', c.stackPush v = some c' ∧
      c'.registers.Read16 registerSP = c.registers.Read16 registerSP - 2 ∧
      c'.mem.Read16 (c.registers.Read16 registerSP - 2) = some v ∧
      c'.mem.interrupt = c.mem.interrupt ∧
      c'.programCounter = c.programCounter ∧
      c'.interrupts = c.interrupts ∧
      c'.powerOn = c.powerOn ∧
      c'.lowPowerMode = c.lowPowerMode := by
  have hsub : sub16 (c.registers.Read16 registerSP) 2 = c.registers.Read16 registerSP - 2 := by
    unfold sub16
    omega
  obtain ⟨m', hw, hr, hi⟩ := mem_write16_read16_wram0 c.mem
    (c.registers.Read16 registerSP - 2) v (by omega) (by omega) hv
  refine ⟨{ c with
      registers := c.registers.Write16 registerSP (c.registers.Read16 registerSP - 2),
      mem := m' }, ?_, ?_, hr, hi, rfl, rfl, rfl, rfl⟩
  · unfold Cpu.stackPush
    simp only [hsub]
    show (c.mem.Write16 (c.registers.Read16 registerSP - 2) v).bind _ = _
    rw [hw]
    rfl
  · show (c.registers.Write16 registerSP (c.registers.Read16 registerSP - 2)).Read16
        registerSP = _
    rw [registers_write16_read16 _ _ _ (by unfold registerSP registerAF; omega) (by omega)]

/-- C9: for every 16-bit value `v` and every register-file state,
`write16(AF, v)` followed by `read16(AF)` yields `v & 0xFFF0` (the write
masks the low nibble of F before storing), and no other register pair
(BC, DE, HL, SP) is affected. -/
theorem write16_af_read16_masks_low_nibble (r : GB.Registers) (v : Nat) (hv : v < 65536) :
    ((r.Write16 GB.registerAF v).Read16 GB.registerAF = v &&& 0xFFF0) ∧
    ((r.Write16 GB.registerAF v).Read16 GB.registerBC = r.Read16 GB.registerBC) ∧
    ((r.Write16 GB.registerAF v).Read16 GB.registerDE = r.Read16 GB.registerDE) ∧
    ((r.Write16 GB.registerAF v).Read16 GB.registerHL = r.Read16 GB.registerHL) ∧
    ((r.Write16 GB.registerAF v).Read16 GB.registerSP = r.Read16 GB.registerSP) := by
  have hm : v &&& 0xFFF0 ≤ v := Nat.and_le_left
  have hm2 : v &&& 0xFFF0 < 65536 := lt_of_le_of_lt hm hv
  unfold GB.Registers.Write16 GB.Registers.Read16
  unfold GB.registerAF GB.registerBC GB.registerDE GB.registerHL GB.registerSP
  simp only [if_pos rfl, upd_apply]
  norm_num
  set m := v &&& 0xFFF0 with hmdef
  rw [leUint16_eq _ _ (Nat.mod_lt _ (by norm_num))]
  rw [Nat.shiftRight_eq_div_pow]
  have h256 : m / 2 ^ 8 < 256 := by
    have : m < 256 * 256 := hm2
    omega
  rw [Nat.mod_eq_of_lt h256]
  have := Nat.div_add_mod m (2 ^ 8)
  omega

/-- Witness for `write16_af_read16_masks_low_nibble` at
`r = all-zero registers`, `v = 0x1234`. -/
theorem write16_af_read16_masks_low_nibble_witness :
    ((GB.Registers.mk fun _ => 0).Write16 GB.registerAF 0x1234).Read16 GB.registerAF
      = 0x1234 &&& 0xFFF0 ∧
    (0x1234 : Nat) < 65536 := by
  refine ⟨(write16_af_read16_masks_low_nibble ⟨fun _ => 0⟩ 0x1234 (by decide)).1, by decide⟩

/-- C8: on every timer cycle with TAC bit 2 set, the TIMA accumulator is
increased by 1/64/16/4 according to TAC bits 1..0 (`00/01/10/11`); when
it reaches at least 256 it wraps to 0 and TIMA is incremented; if that
increment overflows TIMA to 0, TIMA is reloaded with TMA and the Timer
interrupt request is set in the same cycle. -/
theorem timer_cycle_tima_behaviour (t : GB.Timer)
    (henabled : readBitN (t.readRegister GB.registerFF07) 2 = true) :
    ((t.Cycle).incrementalTimer =
       if t.incrementalTimer + timaIncrement (t.readRegister GB.registerFF07) ≥ 256
       then 0
       else t.incrementalTimer + timaIncrement (t.readRegister GB.registerFF07)) ∧
    (t.incrementalTimer + timaIncrement (t.readRegister GB.registerFF07) ≥ 256 →
      ((t.Cycle).readRegister GB.registerFF05 =
         if (t.readRegister GB.registerFF05 + 1) % 256 = 0
         then t.readRegister GB.registerFF06
         else (t.readRegister GB.registerFF05 + 1) % 256) ∧
      ((t.Cycle).interruptPending =
         if (t.readRegister GB.registerFF05 + 1) % 256 = 0
         then true
         else t.interruptPending)) ∧
    (t.incrementalTimer + timaIncrement (t.readRegister GB.registerFF07) < 256 →
      (t.Cycle).readRegister GB.registerFF05 = t.readRegister GB.registerFF05 ∧
      (t.Cycle).interruptPending = t.interruptPending) := by
  unfold GB.Timer.Cycle
  unfold GB.Timer.readRegister GB.Timer.writeRegister at *
  unfold GB.registerFF04 GB.registerFF05 GB.registerFF06 GB.registerFF07
    GB.offsetTimerRegisters at *
  norm_num at *
  simp only [henabled, if_true, upd_apply]
  split_ifs <;> simp_all [upd_apply]

/-- C3 — code evaluated at the failing input.  Take the ROM image
`data[i] = i / 0x4000` (each byte names the 16-KiB bank it belongs to),
`bank_rom_low = 4`, `bank_rom_high_or_ram = 0`, `banking_mode = false`
(so `effective_bank = 4`), and `address = 0x4000`.  The claimed full
index is `0x4000 * 4 + 0 = 0x10000`, whose byte is 4; the code indexes
with Go `uint16` arithmetic, `0x10000 % 65536 = 0`, and returns
`data[0] = 0` instead. -/
theorem rom_bank_read8_truncates_index :
    (GB.Rom.mk (fun i => i / 0x4000) 4 0 false).romBankNumber = 4 ∧
    (GB.Rom.mk (fun i => i / 0x4000) 4 0 false).Read8 0x4000 = some 0 ∧
    (GB.Rom.mk (fun i => i / 0x4000) 4 0 false).data
        (0x4000 * (GB.Rom.mk (fun i => i / 0x4000) 4 0 false).romBankNumber
          + (0x4000 - 0x4000)) = 4 := by
  refine ⟨by decide, ?_, by decide⟩
  unfold GB.Rom.Read8
  norm_num [GB.Rom.romBankNumber]

/-- Witness for `timer_cycle_tima_behaviour`: TAC = 0x05 (enabled, mode 1,
`+64`), accumulator 200, TIMA 0. -/
theorem timer_cycle_tima_behaviour_witness :
    (readBitN ((GB.Timer.mk (fun i => if i = 3 then 0x05 else 0) 200 0 false).readRegister
        GB.registerFF07) 2 = true) ∧
    ((GB.Timer.mk (fun i => if i = 3 then 0x05 else 0) 200 0 false).Cycle).incrementalTimer
      = 0 := by
  constructor
  · decide
  · have h := (timer_cycle_tima_behaviour
      (GB.Timer.mk (fun i => if i = 3 then 0x05 else 0) 200 0 false) (by decide)).1
    simpa using h

/-- C2 — code evaluated at the failing input.  On `videoC2` the
background tile lookup at line 0, dot 0 yields color index `c = 0` with
`BGP = p = 0x01`, so the claimed shade is `(p >> (2*c)) & 0x03 = 1`; the
code computes `(p >> 2) * c & 0x03` (Go parses `platter >> 2 * colorNum`
left to right) and emits shade 0 instead. -/
theorem background_shade_diverges_from_bgp_formula :
    GB.videoC2.calculateBackgroundShade 0 0 = (0, GB.shadePriorityBackgroundZero) ∧
    GB.videoC2.calculateShade 0 0 = 0 ∧
    GB.videoC2.readRegister GB.registerFF47 = 0x01 ∧
    GB.videoC2.lookupShadeInPlatter 0x01 0 = 0 ∧
    (0x01 >>> (2 * 0)) &&& 0x03 = 1 := by
  decide

set_option maxRecDepth 4000 in
/-- C4 — code evaluated at the failing inputs.  On `videoC4a` (two
sprites with equal x) the pixel at line 0, dot 0 comes from OAM entry 1
(shade 2 = tile 1's color through OBP0), not entry 0 as the
lower-OAM-index tie-break demands (which would give shade 1).  On
`videoC4b` (one sprite covering lines 0..7) line 8 still produces a
sprite pixel, although `8 ∉ [0, 8)`: the overlap test accepts the closed
interval `[y, y + sprite_height]`. -/
theorem sprite_selection_diverges :
    GB.videoC4a.calculateSpriteShade 0 0 = (GB.grayDark, GB.shadePrioritySpriteHigh) ∧
    GB.videoC4b.calculateSpriteShade 8 0 = (GB.grayLight, GB.shadePrioritySpriteHigh) := by
  decide

/-- C6: `EI` sets the latch to EnableAfterNext, which the post-execution
advance moves one step after every instruction, so after the `EI` cycle
the latch reads EnableAfterCurrent, after the following `NOP` it reads
Enabled, and `DI` forces Disabled; with a pending and enabled interrupt
injected afterwards, `readAndClearInterrupt` still reports nothing to
service at entry to the instruction after `DI`. -/
theorem ei_nop_di_leaves_interrupts_disabled :
    (GB.cpuC6.Cycle).map (fun p => (p.1.interrupts, p.1.programCounter, p.2))
      = some (.interruptsEnabledAfterCycle, 0x0101, 1) ∧
    (GB.cpuC6a.Cycle).map (fun p => (p.1.interrupts, p.1.programCounter, p.2))
      = some (.interruptsEnabled, 0x0102, 1) ∧
    (GB.cpuC6b.Cycle).map (fun p => (p.1.interrupts, p.1.programCounter, p.2))
      = some (.interruptsDisabled, 0x0103, 1) ∧
    GB.cpuC6pending.interrupts = .interruptsDisabled ∧
    (GB.cpuC6pending.readAndClearInterrupt).map (fun p => p.2) = some none := by
  decide

/-- C5 — counterexample to the claim as stated.  With IME enabled and
`IF = IE = 0x20` (so `IF & IE ≠ 0` but no bit 0..4 is set) the CPU does
not service anything: it fetches and runs the NOP at PC, reports 1
machine cycle (not 5), leaves IME enabled and leaves IF untouched. -/
theorem interrupt_service_needs_low_five_bits :
    GB.cpuC5bad.interrupts = .interruptsEnabled ∧
    GB.cpuC5bad.mem.interrupt.interruptEnabled &&& GB.cpuC5bad.mem.interrupt.interruptFlag ≠ 0 ∧
    (GB.cpuC5bad.Cycle).map
        (fun p => (p.1.interrupts, p.1.mem.interrupt.interruptFlag, p.1.programCounter, p.2))
      = some (.interruptsEnabled, 0x20, 0x0101, 1) := by
  refine ⟨rfl, by decide, by decide⟩

/-- C1 — code evaluated at the failing input.  From `machineC1` (one
tick before VBlank) a single machine tick makes the PPU raise its VBlank
request (`interruptVBlank` becomes true), yet the interrupt drain leaves
IF = 0 — bit 0 is not set at entry to the next tick, because `New` wires
`nil` at interrupt-source index 0 instead of the video controller's
VBlank source. -/
theorem vblank_request_never_reaches_if :
    (GB.machineC1.tick).map (fun m =>
        (m.cpu.mem.video.interruptVBlank,
         readBitN m.cpu.mem.interrupt.interruptFlag 0,
         m.cpu.mem.interrupt.interruptFlag,
         m.cpuIdleCycles))
      = some (true, false, 0, 4) := by
  decide

theorem readAndClear_disabled (c : Cpu) (h : c.interrupts ≠ .interruptsEnabled) :
    c.readAndClearInterrupt = some (c, none) := by
  unfold Cpu.readAndClearInterrupt
  rw [if_pos h]
  rfl

theorem and_fifteen_eq_mod (v : Nat) : v &&& 0xF = v % 16 := by
  have h := Nat.and_pow_two_sub_one_eq_mod v 4
  norm_num at h
  exact h

theorem and_ff_eq_mod (v : Nat) : v &&& 0xFF = v % 256 := by
  have h := Nat.and_pow_two_sub_one_eq_mod v 8
  norm_num at h
  exact h

/-- C5 (amended): whenever the CPU begins a cycle with IME Enabled, not
halted, and `IF & IE` having a set bit among bits 0..4 (the five
interrupt sources), it services exactly the lowest-index such bit: that
bit is cleared in IF, IME becomes Disabled, the current PC is pushed
onto the stack (SP decreases by 2 and the pushed word reads back as PC),
PC is set to that source's vector via `interruptAddresses`, and the
cycle reports 5 machine cycles without fetching an opcode.  (Stated for
a stack residing in WRAM so that the bus writes are defined.) -/
theorem interrupt_service_lowest_bit (c : GB.Cpu)
    (hlp : c.lowPowerMode = false)
    (hime : c.interrupts = .interruptsEnabled)
    (hne : (c.mem.interrupt.interruptEnabled &&& c.mem.interrupt.interruptFlag) &&& 0x1F ≠ 0)
    (hpc : c.programCounter < 65536)
    (hsp1 : 0xC002 ≤ c.registers.Read16 GB.registerSP)
    (hsp2 : c.registers.Read16 GB.registerSP ≤ 0xD000) :
    ∃ i c',
      GB.firstPendingBit (c.mem.interrupt.interruptEnabled &&& c.mem.interrupt.interruptFlag)
        = some i ∧
      i ≤ 4 ∧
      readBitN (c.mem.interrupt.interruptEnabled &&& c.mem.interrupt.interruptFlag) i = true ∧
      (∀ j, j < i →
        readBitN (c.mem.interrupt.interruptEnabled &&& c.mem.interrupt.interruptFlag) j
          = false) ∧
      c.Cycle = some (c', 5) ∧
      c'.interrupts = .interruptsDisabled ∧
      c'.programCounter = GB.interruptAddresses i ∧
      c'.mem.interrupt.interruptFlag
        = writeBitN c.mem.interrupt.interruptFlag i false ∧
      c'.registers.Read16 GB.registerSP = c.registers.Read16 GB.registerSP - 2 ∧
      c'.mem.Read16 (c.registers.Read16 GB.registerSP - 2) = some c.programCounter := by
  obtain ⟨i, hfb, hle, hbit, hlow⟩ := GB.firstPendingBit_spec _ hne
  have hne0 : c.mem.interrupt.interruptEnabled &&& c.mem.interrupt.interruptFlag ≠ 0 := by
    intro h
    rw [h] at hne
    exact hne rfl
  have hrac := GB.readAndClear_pending c i hime hne0 hfb
  obtain ⟨c3, hpush, hsp', hread, hint, hpc', hints', hpow, hlpm⟩ :=
    GB.stackPush_wram
      { c with
        mem := { c.mem with interrupt := { c.mem.interrupt with
          interruptFlag := writeBitN c.mem.interrupt.interruptFlag i false } },
        interrupts := .interruptsDisabled }
      c.programCounter hpc hsp1 hsp2
  refine ⟨i, { c3 with programCounter := GB.interruptAddresses i },
    hfb, hle, hbit, hlow, ?_, ?_, rfl, ?_, hsp', hread⟩
  · rw [GB.cpu_cycle_awake_eq c hlp,
      GB.cycleAwake_service c _ (GB.interruptAddresses i) hrac]
    show (GB.Cpu.stackPush _ _).bind _ = _
    rw [hpush]
    rfl
  · exact hints'
  · show c3.mem.interrupt.interruptFlag = _
    rw [hint]

/-- Witness for `interrupt_service_lowest_bit`: IME enabled,
`IF = IE = 0x04` (Timer), `SP = 0xD000`, `PC = 0x1234`. -/
theorem interrupt_service_lowest_bit_witness :
    ∃ i c',
      GB.firstPendingBit
          (GB.cpuC5good.mem.interrupt.interruptEnabled &&&
            GB.cpuC5good.mem.interrupt.interruptFlag) = some i ∧
      i ≤ 4 ∧
      readBitN (GB.cpuC5good.mem.interrupt.interruptEnabled &&&
        GB.cpuC5good.mem.interrupt.interruptFlag) i = true ∧
      (∀ j, j < i →
        readBitN (GB.cpuC5good.mem.interrupt.interruptEnabled &&&
          GB.cpuC5good.mem.interrupt.interruptFlag) j = false) ∧
      GB.cpuC5good.Cycle = some (c', 5) ∧
      c'.interrupts = .interruptsDisabled ∧
      c'.programCounter = GB.interruptAddresses i ∧
      c'.mem.interrupt.interruptFlag
        = writeBitN GB.cpuC5good.mem.interrupt.interruptFlag i false ∧
      c'.registers.Read16 GB.registerSP
        = GB.cpuC5good.registers.Read16 GB.registerSP - 2 ∧
      c'.mem.Read16 (GB.cpuC5good.registers.Read16 GB.registerSP - 2)
        = some GB.cpuC5good.programCounter :=
  interrupt_service_lowest_bit GB.cpuC5good (by decide) (by decide) (by decide) (by decide)
    (by decide) (by decide)

set_option maxRecDepth 4000 in
theorem executeFull_ldsp (cc : GB.Cpu) (off : Nat)
    (hoff : cc.mem.Read8 (GB.sub16 cc.programCounter 1) = some off) :
    cc.executeFull GB.ldspInstruction
      = some ({ cc with registers := GB.ldspRegisters cc.registers off }, 3) := by
  simp only [GB.Cpu.executeFull, GB.Cpu.execute, GB.Cpu.postIncrementDecrement,
    GB.ldspInstruction, GB.Cpu.read16, GB.Cpu.read8signed, GB.Cpu.write16, hoff]
  rfl

theorem ldspRegisters_read16_hl (r : GB.Registers) (off : Nat) :
    (GB.ldspRegisters r off).Read16 GB.registerHL
      = GB.offsetAddress (r.Read16 GB.registerSP) (GB.int8OfByte off) := by
  unfold GB.ldspRegisters
  rw [GB.read16_write1 _ _ _ _ (by decide), GB.read16_write1 _ _ _ _ (by decide),
    GB.read16_write1 _ _ _ _ (by decide), GB.read16_write1 _ _ _ _ (by decide),
    GB.registers_write16_read16 _ _ _ (by decide) (GB.offsetAddress_lt _ _)]

theorem ldspRegisters_flags (r : GB.Registers) (off : Nat) :
    (GB.ldspRegisters r off).Read1 GB.flagZ = false ∧
    (GB.ldspRegisters r off).Read1 GB.flagN = false ∧
    (GB.ldspRegisters r off).Read1 GB.flagH
      = decide (GB.offsetAddress (r.Read16 GB.registerSP) (GB.int8OfByte off) &&& 0xF
          < r.Read16 GB.registerSP &&& 0xF) ∧
    (GB.ldspRegisters r off).Read1 GB.flagC
      = decide (GB.offsetAddress (r.Read16 GB.registerSP) (GB.int8OfByte off) &&& 0xFF
          < r.Read16 GB.registerSP &&& 0xFF) := by
  unfold GB.ldspRegisters
  refine ⟨?_, ?_, ?_, ?_⟩
  · rw [GB.read1_write1 _ _ _ _ (by decide), if_neg (by decide),
      GB.read1_write1 _ _ _ _ (by decide), if_neg (by decide),
      GB.read1_write1 _ _ _ _ (by decide), if_neg (by decide),
      GB.read1_write1 _ _ _ _ (by decide), if_pos rfl]
  · rw [GB.read1_write1 _ _ _ _ (by decide), if_neg (by decide),
      GB.read1_write1 _ _ _ _ (by decide), if_neg (by decide),
      GB.read1_write1 _ _ _ _ (by decide), if_pos rfl]
  · rw [GB.read1_write1 _ _ _ _ (by decide), if_neg (by decide),
      GB.read1_write1 _ _ _ _ (by decide), if_pos rfl]
  · rw [GB.read1_write1 _ _ _ _ (by decide), if_pos rfl]

set_option maxRecDepth 4000 in
/-- C7: executing LDSP (opcode 0xF8) sets HL to SP plus the
sign-extended offset modulo 65536, sets Z = 0 and N = 0, and sets H
(respectively C) exactly when adding the offset byte to SP's low byte,
both as unsigned 8-bit values, carries out of bit 3 (respectively
bit 7) — including when the offset is negative; the instruction takes 3
machine cycles. -/
theorem ldsp_hl_and_carry_flags (c : GB.Cpu) (off : Nat)
    (hlp : c.lowPowerMode = false)
    (hime : c.interrupts = .interruptsDisabled)
    (hopc : c.mem.Read8 c.programCounter = some 0xF8)
    (hoff : c.mem.Read8 ((c.programCounter + 1) % 65536) = some off)
    (hoffb : off < 256) :
    ∃ c', c.Cycle = some (c', 3) ∧
      (c'.registers.Read16 GB.registerHL : Int)
        = ((c.registers.Read16 GB.registerSP : Int) + GB.int8OfByte off) % 65536 ∧
      c'.registers.Read1 GB.flagZ = false ∧
      c'.registers.Read1 GB.flagN = false ∧
      c'.registers.Read1 GB.flagH
        = decide (c.registers.Read16 GB.registerSP % 16 + off % 16 > 0xF) ∧
      c'.registers.Read1 GB.flagC
        = decide (c.registers.Read16 GB.registerSP % 256 + off % 256 > 0xFF) := by
  have hne : c.interrupts ≠ .interruptsEnabled := by
    rw [hime]
    decide
  have hsub : GB.sub16 ((c.programCounter + 2) % 65536) 1 = (c.programCounter + 1) % 65536 := by
    unfold GB.sub16
    omega
  rw [GB.cpu_cycle_awake_eq c hlp]
  unfold GB.Cpu.cycleAwake
  rw [GB.readAndClear_disabled c hne]
  simp only [Option.bind_eq_bind, Option.some_bind]
  rw [hopc]
  simp only [Option.some_bind]
  rw [if_neg (by decide : ¬ (0xF8 : Nat) = 0xCB)]
  rw [(by decide : GB.instructions 0xF8 = some GB.ldspInstruction)]
  simp only [Option.some_bind]
  have hoff2 : ({ c with programCounter := (c.programCounter + GB.ldspInstruction.Size) % 65536 } : GB.Cpu).mem.Read8
      (GB.sub16 ({ c with programCounter := (c.programCounter + GB.ldspInstruction.Size) % 65536 } : GB.Cpu).programCounter 1) = some off := by
    show c.mem.Read8 (GB.sub16 ((c.programCounter + 2) % 65536) 1) = some off
    rw [hsub]
    exact hoff
  rw [GB.executeFull_ldsp _ off hoff2]
  refine ⟨{ c with programCounter := (c.programCounter + GB.ldspInstruction.Size) % 65536, registers := GB.ldspRegisters c.registers off }, ?_, ?_, ?_, ?_, ?_, ?_⟩
  · rw [hime]
    rfl
  · show ((GB.ldspRegisters c.registers off).Read16 GB.registerHL : Int) = _
    rw [GB.ldspRegisters_read16_hl]
    exact GB.offsetAddress_int8_int _ off hoffb
  · exact (GB.ldspRegisters_flags c.registers off).1
  · exact (GB.ldspRegisters_flags c.registers off).2.1
  · show (GB.ldspRegisters c.registers off).Read1 GB.flagH = _
    rw [(GB.ldspRegisters_flags c.registers off).2.2.1,
      GB.and_fifteen_eq_mod, GB.and_fifteen_eq_mod, decide_eq_decide]
    have hm := GB.offsetAddress_int8_mod256 (c.registers.Read16 GB.registerSP) off hoffb
    have h16a := Nat.mod_mod_of_dvd
      (GB.offsetAddress (c.registers.Read16 GB.registerSP) (GB.int8OfByte off))
      (by norm_num : (16 : Nat) ∣ 256)
    have h16b := Nat.mod_mod_of_dvd
      (c.registers.Read16 GB.registerSP + off) (by norm_num : (16 : Nat) ∣ 256)
    omega
  · show (GB.ldspRegisters c.registers off).Read1 GB.flagC = _
    rw [(GB.ldspRegisters_flags c.registers off).2.2.2,
      GB.and_ff_eq_mod, GB.and_ff_eq_mod, decide_eq_decide]
    have hm := GB.offsetAddress_int8_mod256 (c.registers.Read16 GB.registerSP) off hoffb
    omega

/-- Witness for C7: `cpuC7` (SP = 0x0001, offset byte 0xFF) executes
LDSP in 3 cycles with HL = 0x0000, Z = N = 0 and H = C = 1. -/
theorem ldsp_hl_and_carry_flags_witness :
    ∃ c', GB.cpuC7.Cycle = some (c', 3) ∧
      (c'.registers.Read16 GB.registerHL : Int)
        = ((GB.cpuC7.registers.Read16 GB.registerSP : Int) + GB.int8OfByte 0xFF) % 65536 ∧
      c'.registers.Read1 GB.flagZ = false ∧
      c'.registers.Read1 GB.flagN = false ∧
      c'.registers.Read1 GB.flagH
        = decide (GB.cpuC7.registers.Read16 GB.registerSP % 16 + 0xFF % 16 > 0xF) ∧
      c'.registers.Read1 GB.flagC
        = decide (GB.cpuC7.registers.Read16 GB.registerSP % 256 + 0xFF % 256 > 0xFF) :=
  GB.ldsp_hl_and_carry_flags GB.cpuC7 0xFF rfl rfl rfl rfl (by decide)

/-- C10: while LCDC bit 7 is clear, `videoController.Cycle` returns the
state unchanged — the dot/line counter, LY, the STAT bits and the
VRAM/OAM accessibility gates are all frozen, so re-enabling resumes
where the PPU stopped. -/
theorem video_cycle_disabled_is_identity (s : GB.Video)
    (h : s.readFlag GB.flagVideoEnabled = false) :
    s.Cycle = s := by
  unfold GB.Video.Cycle
  simp [h]

/-- Witness for `video_cycle_disabled_is_identity` on `videoC10`. -/
theorem video_cycle_disabled_is_identity_witness :
    GB.videoC10.readFlag GB.flagVideoEnabled = false ∧
    GB.videoC10.Cycle = GB.videoC10 ∧
    GB.videoC10.Cycle.nextCycle = 1234 := by
  have h : GB.videoC10.readFlag GB.flagVideoEnabled = false := by decide
  have h2 := video_cycle_disabled_is_identity GB.videoC10 h
  exact ⟨h, h2, by rw [h2]; rfl⟩


end GB

